import Mathlib

/-!
Verification of the mushroom classifier repository (src/utils.py and
src/streamlit_app.py) via a shallow embedding.

Modelling conventions:
* Python floats are modelled by `ℚ` (exact arithmetic on the values the code
  computes with).
* A raised Python exception is modelled by `Except.error msg`: a function
  returning `Except.error` propagates an exception to its caller, while a
  function whose Lean type is `Option _`/plain has caught every exception
  internally (the streamlit handlers print a message and return `None`).
* PIL images are modelled by their mode, size and an RGB pixel-channel
  function into bytes; `uint8` numpy image arrays likewise.
* External library calls whose behaviour the repository does not define are
  parameters: `Image.open` is an `OpenFn`, `Image.resize` (LANCZOS) is a
  `ResizeFn` (its documented contract `ResizeSpec` states the output size),
  `keras.models.load_model` and `os.path.exists` are parameters of the
  loading functions, and a loaded keras model is its inference function
  `NpArray → Except String ℚ` producing `prediction[0][0]`.
-/

/-- A PIL image: mode string, width, height, and the pixel function giving the
byte value of each RGB channel (the RGB interpretation of the pixel data). -/
structure PILImage where
  mode : String
  width : Nat
  height : Nat
  px : Nat → Nat → Fin 3 → Fin 256

/-- A `uint8` numpy image array of shape (height, width, 3). -/
structure NdArray where
  height : Nat
  width : Nat
  px : Nat → Nat → Fin 3 → Fin 256

/-- `PIL.Image.fromarray(a.astype('uint8'))` on an (h, w, 3) uint8 array:
an RGB image with the same pixel data. -/
def PILImage.fromarray (a : NdArray) : PILImage :=
  { mode := "RGB", width := a.width, height := a.height, px := a.px }

/-- `image.convert('RGB')`: the pixel field already stores the RGB
interpretation of the data, so converting only changes the mode. -/
def PILImage.convert_RGB (i : PILImage) : PILImage :=
  { i with mode := "RGB" }

/-- A numpy float array: its shape and the entry at each index list. -/
structure NpArray where
  shape : List Nat
  entry : List Nat → ℚ

/-- `np.array(image)` on an RGB PIL image: shape (height, width, 3), entries
the byte channel values. -/
def np_array_of_pil (i : PILImage) : NpArray :=
  { shape := [i.height, i.width, 3]
    entry := fun idx =>
      match idx with
      | [r, c, ch] => if h : ch < 3 then ((i.px r c ⟨ch, h⟩ : Nat) : ℚ) else 0
      | _ => 0 }

/-- `arr.astype('float32') / 255.0`. -/
def scale_unit (a : NpArray) : NpArray :=
  { shape := a.shape, entry := fun idx => a.entry idx / 255 }

/-- `np.expand_dims(arr, axis=0)`. -/
def expand_dims0 (a : NpArray) : NpArray :=
  { shape := 1 :: a.shape
    entry := fun idx =>
      match idx with
      | _ :: rest => a.entry rest
      | [] => 0 }

/-- The possible runtime types of the `image` argument: a file path string, a
numpy array, a PIL image, or any other object. -/
inductive ImageInput where
  | path : String → ImageInput
  | ndarray : NdArray → ImageInput
  | pil : PILImage → ImageInput
  | other : ImageInput

/-- A loaded keras model, abstracted as its inference routine: on a
preprocessed array it either returns `float(prediction[0][0])` or raises. -/
abbrev Model := NpArray → Except String ℚ

/-- `PIL.Image.open`: on a path, either a decoded image or a raised error
(missing or corrupt file). -/
abbrev OpenFn := String → Except String PILImage

/-- `image.resize(size, Image.LANCZOS)` as an abstract library routine. -/
abbrev ResizeFn := PILImage → Nat × Nat → PILImage

/-- The documented contract of `PIL.Image.resize`: the result has the
requested (width, height) size. -/
def ResizeSpec (rz : ResizeFn) : Prop :=
  ∀ i w h, (rz i (w, h)).width = w ∧ (rz i (w, h)).height = h

/-- The `probabilities` sub-dictionary of a `MushroomClassifier.predict`
result. -/
structure Probabilities where
  edible : ℚ
  poisonous : ℚ

/-- The result dictionary of `MushroomClassifier.predict` (utils.py). -/
structure PredResult where
  prediction : String
  confidence : ℚ
  probabilities : Probabilities
  is_poisonous : Bool

/-- The result dictionary of `predict_mushroom` (streamlit_app.py); the
probability fields are percentages. -/
structure StPredResult where
  prediction : String
  confidence : ℚ
  edible_prob : ℚ
  poisonous_prob : ℚ
  is_poisonous : Bool

/-- An element of the list returned by `predict_batch`: a prediction result
dictionary or an `{'error': msg}` dictionary. -/
inductive BatchEntry where
  | result : PredResult → BatchEntry
  | error : String → BatchEntry

namespace Utils

/-- The `MushroomClassifier` object state (utils.py lines 19-31): the four
fields set by `__init__`. -/
structure MushroomClassifier where
  model_path : String
  img_size : Nat × Nat
  class_names : List String
  model : Option Model

/-- `MushroomClassifier.load_model` (utils.py lines 33-47): if the file is
missing, a `FileNotFoundError` is raised inside the `try`, caught, a message
printed, `self.model` set to `None` and `False` returned; a `load_model`
failure is handled the same way; on success the model is stored and `True`
returned. `path_exists` models `os.path.exists`, `keras_load` models
`keras.models.load_model`. -/
def MushroomClassifier.load_model (path_exists : String → Bool)
    (keras_load : String → Except String Model)
    (self : MushroomClassifier) : MushroomClassifier × Bool :=
  if path_exists self.model_path = false then
    ({ self with model := none }, false)
  else
    match keras_load self.model_path with
    | Except.ok m => ({ self with model := some m }, true)
    | Except.error _ => ({ self with model := none }, false)

/-- `MushroomClassifier.__init__` (utils.py lines 19-31): sets the fields and
calls `load_model`. -/
def MushroomClassifier.init (path_exists : String → Bool)
    (keras_load : String → Except String Model)
    (model_path : String) (img_size : Nat × Nat := (224, 224)) :
    MushroomClassifier :=
  (MushroomClassifier.load_model path_exists keras_load
    { model_path := model_path, img_size := img_size
      class_names := ["Edible", "Poisonous"], model := none }).1

/-- `MushroomClassifier.preprocess_image` (utils.py lines 49-86): dispatch on
the input type (a path is opened, an ndarray converted via `fromarray`, a PIL
image used as is, anything else raises `ValueError`), then convert to RGB if
needed, resize to `self.img_size`, convert to a numpy array, scale to [0,1]
and add the batch dimension. Errors propagate (there is no handler here). -/
def MushroomClassifier.preprocess_image (open_image : OpenFn) (rz : ResizeFn)
    (self : MushroomClassifier) (image : ImageInput) : Except String NpArray :=
  (match image with
    | ImageInput.path p => open_image p
    | ImageInput.ndarray a => Except.ok (PILImage.fromarray a)
    | ImageInput.pil i => Except.ok i
    | ImageInput.other =>
        Except.error "Image must be PIL Image, numpy array, or file path").map
    (fun (img : PILImage) =>
      let img := if img.mode ≠ "RGB" then img.convert_RGB else img
      let img := rz img self.img_size
      let arr := np_array_of_pil img
      let arr := scale_unit arr
      expand_dims0 arr)

/-- utils.py lines 110-127: the result dictionary built from
`poisonous_prob = float(prediction[0][0])`. -/
def result_of_prob (class_names : List String) (poisonous_prob : ℚ) :
    PredResult :=
  let edible_prob : ℚ := 1 - poisonous_prob
  let predicted_class :=
    if poisonous_prob > 1/2 then class_names.getD 1 "" else class_names.getD 0 ""
  let confidence := max poisonous_prob edible_prob
  { prediction := predicted_class
    confidence := confidence
    probabilities := { edible := edible_prob, poisonous := poisonous_prob }
    is_poisonous := decide (poisonous_prob > 1/2) }

/-- `MushroomClassifier.predict` (utils.py lines 88-132): raises
`RuntimeError` when no model is loaded; otherwise preprocesses, runs the
model and builds the result, re-raising any exception `e` of the `try` block
as `RuntimeError("Prediction failed: " + str(e))`. The returned classifier is
the (unmodified) `self`, making the method's effect on the object explicit. -/
def MushroomClassifier.predict (open_image : OpenFn) (rz : ResizeFn)
    (self : MushroomClassifier) (image : ImageInput)
    (return_probs : Bool := false) :
    MushroomClassifier × Except String PredResult :=
  match self.model with
  | none => (self, Except.error "Model not loaded. Cannot make predictions.")
  | some m =>
    (self,
      match MushroomClassifier.preprocess_image open_image rz self image with
      | Except.error e => Except.error ("Prediction failed: " ++ e)
      | Except.ok processed_image =>
        match m processed_image with
        | Except.error e => Except.error ("Prediction failed: " ++ e)
        | Except.ok p => Except.ok (result_of_prob self.class_names p))

/-- `MushroomClassifier.predict_batch` (utils.py lines 134-155): raises
`RuntimeError` when no model is loaded; otherwise loops over the images in
order, appending each `predict` result, and catching a failed `predict` into
an `{'error': str(e)}` entry. -/
def MushroomClassifier.predict_batch (open_image : OpenFn) (rz : ResizeFn)
    (self : MushroomClassifier) (images : List ImageInput) :
    MushroomClassifier × Except String (List BatchEntry) :=
  match self.model with
  | none => (self, Except.error "Model not loaded. Cannot make predictions.")
  | some _ =>
    (self, Except.ok (images.map (fun image =>
      match (MushroomClassifier.predict open_image rz self image).2 with
      | Except.ok r => BatchEntry.result r
      | Except.error e => BatchEntry.error e)))

/-- `preprocess_image_simple` (utils.py lines 158-186): open the path,
convert to RGB if needed, resize to `img_size`, scale and add the batch
dimension. Errors propagate. -/
def preprocess_image_simple (open_image : OpenFn) (rz : ResizeFn)
    (image_path : String) (img_size : Nat × Nat := (224, 224)) :
    Except String NpArray :=
  (open_image image_path).map (fun (img : PILImage) =>
    let img := if img.mode ≠ "RGB" then img.convert_RGB else img
    let img := rz img img_size
    let arr := np_array_of_pil img
    let arr := scale_unit arr
    expand_dims0 arr)

end Utils

namespace StreamlitApp

/-- streamlit_app.py line 65. -/
def MODEL_PATH : String := "mushroom_model.h5"

/-- streamlit_app.py line 66. -/
def IMG_SIZE : Nat × Nat := (224, 224)

/-- streamlit_app.py line 67. -/
def CLASS_NAMES : List String := ["Edible", "Poisonous"]

/-- `load_model` (streamlit_app.py lines 70-83): a missing file or a keras
failure is reported with `st.error` and `None` is returned. -/
def load_model (path_exists : String → Bool)
    (keras_load : String → Except String Model) : Option Model :=
  if path_exists MODEL_PATH = false then none
  else
    match keras_load MODEL_PATH with
    | Except.ok m => some m
    | Except.error _ => none

/-- `preprocess_image` (streamlit_app.py lines 86-116): an ndarray is
converted via `fromarray`; a PIL image goes straight through; any other
object (including a path string) has no `mode` attribute, so the `try` body
raises `AttributeError`, which the handler turns into `st.error` plus
`None`. On a PIL input the pipeline is convert-to-RGB, resize to `IMG_SIZE`,
numpy array, scale to [0,1], batch dimension. -/
def preprocess_image (rz : ResizeFn) (image : ImageInput) : Option NpArray :=
  match image with
  | ImageInput.ndarray a =>
      let img := PILImage.fromarray a
      let img := if img.mode ≠ "RGB" then img.convert_RGB else img
      let img := rz img IMG_SIZE
      let arr := np_array_of_pil img
      let arr := scale_unit arr
      some (expand_dims0 arr)
  | ImageInput.pil i =>
      let img := if i.mode ≠ "RGB" then i.convert_RGB else i
      let img := rz img IMG_SIZE
      let arr := np_array_of_pil img
      let arr := scale_unit arr
      some (expand_dims0 arr)
  | ImageInput.path _ => none
  | ImageInput.other => none

/-- streamlit_app.py lines 133-148: the result dictionary built from
`poisonous_prob = float(prediction[0][0])`; percentage fields. -/
def result_of_prob (poisonous_prob : ℚ) : StPredResult :=
  let edible_prob : ℚ := 1 - poisonous_prob
  let predicted_class := if poisonous_prob > 1/2 then "Poisonous" else "Edible"
  let confidence := max poisonous_prob edible_prob * 100
  { prediction := predicted_class
    confidence := confidence
    edible_prob := edible_prob * 100
    poisonous_prob := poisonous_prob * 100
    is_poisonous := decide (poisonous_prob > 1/2) }

/-- `predict_mushroom` (streamlit_app.py lines 119-154): preprocess (a `None`
result short-circuits to `None`), run the model, build the result; any raised
exception is reported with `st.error` and `None` returned. -/
def predict_mushroom (rz : ResizeFn) (model : Model) (image : ImageInput) :
    Option StPredResult :=
  match preprocess_image rz image with
  | none => none
  | some processed_image =>
    match model processed_image with
    | Except.error _ => none
    | Except.ok p => some (result_of_prob p)

end StreamlitApp

/-! ### Concrete instances of the library parameters, for evaluation -/

/-- A concrete 1-by-1 RGB test image. -/
def img0 : PILImage :=
  { mode := "RGB", width := 1, height := 1, px := fun _ _ _ => ⟨0, by norm_num⟩ }

/-- A concrete resizing routine satisfying `ResizeSpec` (pixel reuse). -/
def rz0 : ResizeFn := fun i sz =>
  { mode := i.mode, width := sz.1, height := sz.2, px := i.px }

/-- A concrete `Image.open` that decodes every path to `img0`. -/
def openI0 : OpenFn := fun _ => Except.ok img0

/-- A concrete model outputting probability 3/4. -/
def model0 : Model := fun _ => Except.ok (3/4)

/-- A concrete model outputting probability 1/2. -/
def modelHalf : Model := fun _ => Except.ok (1/2)

/-- A concrete `keras.models.load_model` returning `model0`. -/
def kload0 : String → Except String Model := fun _ => Except.ok model0

/-- A concrete `keras.models.load_model` returning `modelHalf`. -/
def kloadHalf : String → Except String Model := fun _ => Except.ok modelHalf

/-- An `os.path.exists` for which every file exists. -/
def exists0 : String → Bool := fun _ => true

/-- An `os.path.exists` for which no file exists. -/
def existsNone : String → Bool := fun _ => false

/-- A classifier initialised with an existing model file loading `model0`. -/
def c0 : Utils.MushroomClassifier :=
  Utils.MushroomClassifier.init exists0 kload0 "mushroom_model.h5"

/-- A classifier initialised with an existing model file loading `modelHalf`. -/
def cHalf : Utils.MushroomClassifier :=
  Utils.MushroomClassifier.init exists0 kloadHalf "mushroom_model.h5"

/-- A classifier initialised with a missing model file: its model is `none`. -/
def cNone : Utils.MushroomClassifier :=
  Utils.MushroomClassifier.init existsNone kload0 "mushroom_model.h5"

/-- The preprocessed array of `img0` under `rz0` at size (224, 224). -/
def arr0 : NpArray :=
  expand_dims0 (scale_unit (np_array_of_pil (rz0 img0 (224, 224))))

/-! ### Helper lemmas -/

/-- A preprocessed array is well-formed: shape (1, 224, 224, 3) and every
entry a byte value divided by 255, lying in [0, 1]. -/
def GoodArr (arr : NpArray) : Prop :=
  arr.shape = [1, 224, 224, 3] ∧
  ∀ r c ch : Nat, r < 224 → c < 224 → ch < 3 →
    (∃ v : Nat, v ≤ 255 ∧ arr.entry [0, r, c, ch] = (v : ℚ) / 255) ∧
    0 ≤ arr.entry [0, r, c, ch] ∧ arr.entry [0, r, c, ch] ≤ 1

lemma goodArr_pipeline (rz : ResizeFn) (hrz : ResizeSpec rz) (j : PILImage) :
    GoodArr (expand_dims0 (scale_unit (np_array_of_pil (rz j (224, 224))))) := by
  obtain ⟨hw, hh⟩ := hrz j 224 224
  constructor
  · simp [expand_dims0, scale_unit, np_array_of_pil, hw, hh]
  · intro r c ch hr hc hch
    have hentry :
        (expand_dims0 (scale_unit (np_array_of_pil (rz j (224, 224))))).entry
            [0, r, c, ch]
          = ((rz j (224, 224)).px r c ⟨ch, hch⟩ : Nat) / 255 := by
      simp [expand_dims0, scale_unit, np_array_of_pil, hch]
    have hb : ((rz j (224, 224)).px r c ⟨ch, hch⟩ : Nat) ≤ 255 :=
      Nat.lt_succ_iff.mp ((rz j (224, 224)).px r c ⟨ch, hch⟩).isLt
    refine ⟨⟨((rz j (224, 224)).px r c ⟨ch, hch⟩ : Nat), hb, hentry⟩, ?_, ?_⟩
    · rw [hentry]; positivity
    · rw [hentry, div_le_one (by norm_num)]
      exact_mod_cast hb

lemma half_le_max_self (p : ℚ) : 1/2 ≤ max p (1 - p) := by
  rcases le_total p (1/2) with h | h
  · exact le_trans (by linarith) (le_max_right p (1 - p))
  · exact le_trans h (le_max_left p (1 - p))

lemma predict_ok_eq (open_image : OpenFn) (rz : ResizeFn)
    (c : Utils.MushroomClassifier) (m : Model) (img : ImageInput)
    (arr : NpArray) (p : ℚ)
    (hm : c.model = some m)
    (hpre : Utils.MushroomClassifier.preprocess_image open_image rz c img
      = Except.ok arr)
    (hp : m arr = Except.ok p) :
    (Utils.MushroomClassifier.predict open_image rz c img).2
      = Except.ok (Utils.result_of_prob c.class_names p) := by
  simp only [Utils.MushroomClassifier.predict, hm, hpre, hp]

lemma predict_mushroom_eq (rz : ResizeFn) (m : Model) (img : ImageInput)
    (arr : NpArray) (p : ℚ)
    (hpre : StreamlitApp.preprocess_image rz img = some arr)
    (hp : m arr = Except.ok p) :
    StreamlitApp.predict_mushroom rz m img
      = some (StreamlitApp.result_of_prob p) := by
  simp only [StreamlitApp.predict_mushroom, hpre, hp]

/-- The entry `predict_batch` appends for one image: the `predict` result, or
the `{'error': str(e)}` dictionary when `predict` raised. -/
def batch_entry_of (open_image : OpenFn) (rz : ResizeFn)
    (c : Utils.MushroomClassifier) (image : ImageInput) : BatchEntry :=
  match (Utils.MushroomClassifier.predict open_image rz c image).2 with
  | Except.ok r => BatchEntry.result r
  | Except.error e => BatchEntry.error e

/-! ### The claims -/

/-- Claim C2: for every model output probability p, `MushroomClassifier.predict`
returns the result built from p, whose confidence is max(p, 1-p) and at least
1/2; `predict_mushroom` likewise, with confidence max(p, 1-p)·100, at least
50. -/
theorem C2_confidence (open_image : OpenFn) (rz : ResizeFn)
    (c : Utils.MushroomClassifier) (m : Model) (img : ImageInput)
    (arr sarr : NpArray) (p : ℚ)
    (hm : c.model = some m)
    (hpre : Utils.MushroomClassifier.preprocess_image open_image rz c img
      = Except.ok arr)
    (hp : m arr = Except.ok p)
    (hspre : StreamlitApp.preprocess_image rz img = some sarr)
    (hsp : m sarr = Except.ok p) :
    (Utils.MushroomClassifier.predict open_image rz c img).2
      = Except.ok (Utils.result_of_prob c.class_names p) ∧
    (Utils.result_of_prob c.class_names p).confidence = max p (1 - p) ∧
    1/2 ≤ (Utils.result_of_prob c.class_names p).confidence ∧
    StreamlitApp.predict_mushroom rz m img
      = some (StreamlitApp.result_of_prob p) ∧
    (StreamlitApp.result_of_prob p).confidence = max p (1 - p) * 100 ∧
    50 ≤ (StreamlitApp.result_of_prob p).confidence := by
  have hconf : (Utils.result_of_prob c.class_names p).confidence
      = max p (1 - p) := rfl
  have hsconf : (StreamlitApp.result_of_prob p).confidence
      = max p (1 - p) * 100 := rfl
  refine ⟨predict_ok_eq open_image rz c m img arr p hm hpre hp, hconf, ?_,
    predict_mushroom_eq rz m img sarr p hspre hsp, hsconf, ?_⟩
  · rw [hconf]; exact half_le_max_self p
  · rw [hsconf]
    have h := half_le_max_self p
    nlinarith

/-- Claim C2 witness, at the concrete probability 3/4. -/
theorem C2_confidence_witness :
    c0.model = some model0 ∧ model0 arr0 = Except.ok (3/4) ∧
    1/2 ≤ (Utils.result_of_prob c0.class_names (3/4)).confidence ∧
    50 ≤ (StreamlitApp.result_of_prob (3/4)).confidence := by
  have h := C2_confidence openI0 rz0 c0 model0 (ImageInput.pil img0) arr0 arr0
    (3/4) rfl rfl rfl rfl rfl
  exact ⟨rfl, rfl, h.2.2.1, h.2.2.2.2.2⟩

/-- Claim C3: in `MushroomClassifier.predict` the edible and poisonous
probabilities sum to 1; in `predict_mushroom` the percentage fields sum to
100. -/
theorem C3_probabilities_sum (class_names : List String) (p : ℚ) :
    (Utils.result_of_prob class_names p).probabilities.edible
        + (Utils.result_of_prob class_names p).probabilities.poisonous = 1 ∧
    (StreamlitApp.result_of_prob p).edible_prob
        + (StreamlitApp.result_of_prob p).poisonous_prob = 100 := by
  constructor
  · show (1 - p) + p = 1
    ring
  · show (1 - p) * 100 + p * 100 = 100
    ring

/-- Claim C5: the verdict is always one of the two strings "Edible" and
"Poisonous" (the class names `__init__` installs), and it is "Poisonous"
precisely when the poisonous probability exceeds 1/2, in both
`MushroomClassifier.predict` and `predict_mushroom`. -/
theorem C5_verdict (p : ℚ) :
    (∀ pe kl mp sz, (Utils.MushroomClassifier.init pe kl mp sz).class_names
        = ["Edible", "Poisonous"]) ∧
    ((Utils.result_of_prob ["Edible", "Poisonous"] p).prediction = "Edible" ∨
      (Utils.result_of_prob ["Edible", "Poisonous"] p).prediction
        = "Poisonous") ∧
    ((Utils.result_of_prob ["Edible", "Poisonous"] p).prediction = "Poisonous"
      ↔ 1/2 < p) ∧
    ((StreamlitApp.result_of_prob p).prediction = "Edible" ∨
      (StreamlitApp.result_of_prob p).prediction = "Poisonous") ∧
    ((StreamlitApp.result_of_prob p).prediction = "Poisonous" ↔ 1/2 < p) := by
  refine ⟨?_, ?_, ?_, ?_, ?_⟩
  · intro pe kl mp sz
    unfold Utils.MushroomClassifier.init Utils.MushroomClassifier.load_model
    dsimp only
    split
    · rfl
    · split <;> rfl
  all_goals by_cases h : 1/2 < p <;>
    simp [Utils.result_of_prob, StreamlitApp.result_of_prob, h] <;>
    exact le_or_lt p 2⁻¹

/-- Claim C6: `predict` and `predict_batch` leave every field of the
classifier unchanged (the methods never assign to `self`). -/
theorem C6_frame (open_image : OpenFn) (rz : ResizeFn)
    (c : Utils.MushroomClassifier) (img : ImageInput)
    (imgs : List ImageInput) :
    ((Utils.MushroomClassifier.predict open_image rz c img).1.model_path
        = c.model_path ∧
      (Utils.MushroomClassifier.predict open_image rz c img).1.img_size
        = c.img_size ∧
      (Utils.MushroomClassifier.predict open_image rz c img).1.class_names
        = c.class_names ∧
      (Utils.MushroomClassifier.predict open_image rz c img).1.model
        = c.model) ∧
    ((Utils.MushroomClassifier.predict_batch open_image rz c imgs).1.model_path
        = c.model_path ∧
      (Utils.MushroomClassifier.predict_batch open_image rz c imgs).1.img_size
        = c.img_size ∧
      (Utils.MushroomClassifier.predict_batch open_image rz c imgs).1.class_names
        = c.class_names ∧
      (Utils.MushroomClassifier.predict_batch open_image rz c imgs).1.model
        = c.model) := by
  cases hc : c.model <;>
    simp [Utils.MushroomClassifier.predict,
      Utils.MushroomClassifier.predict_batch, hc]

/-- Claim C7: with the model loaded, `predict_batch` returns (never raises) a
list of the same length as the input, obtained by mapping the single-image
`predict` over the inputs in order, a failed `predict` becoming an
`{'error': ...}` entry and a successful one a result entry. -/
theorem C7_batch (open_image : OpenFn) (rz : ResizeFn)
    (c : Utils.MushroomClassifier) (m : Model) (imgs : List ImageInput)
    (hm : c.model = some m) :
    (Utils.MushroomClassifier.predict_batch open_image rz c imgs).2
      = Except.ok (imgs.map (batch_entry_of open_image rz c)) ∧
    (imgs.map (batch_entry_of open_image rz c)).length = imgs.length ∧
    (∀ img e, (Utils.MushroomClassifier.predict open_image rz c img).2
        = Except.error e →
      batch_entry_of open_image rz c img = BatchEntry.error e) ∧
    (∀ img r, (Utils.MushroomClassifier.predict open_image rz c img).2
        = Except.ok r →
      batch_entry_of open_image rz c img = BatchEntry.result r) := by
  refine ⟨?_, List.length_map _ _, ?_, ?_⟩
  · simp only [Utils.MushroomClassifier.predict_batch, hm]
    rfl
  · intro img e he
    unfold batch_entry_of
    rw [he]
  · intro img r hr
    unfold batch_entry_of
    rw [hr]

/-- Claim C7 witness: a concrete batch with one valid image and one invalid
input. -/
theorem C7_batch_witness :
    c0.model = some model0 ∧
    (Utils.MushroomClassifier.predict_batch openI0 rz0 c0
        [ImageInput.pil img0, ImageInput.other]).2
      = Except.ok ([ImageInput.pil img0, ImageInput.other].map
          (batch_entry_of openI0 rz0 c0)) :=
  ⟨rfl, (C7_batch openI0 rz0 c0 model0
    [ImageInput.pil img0, ImageInput.other] rfl).1⟩

/-- Claim C8: at the decision boundary p = 1/2 both predictors return the
verdict "Edible" with `is_poisonous` false and confidence exactly 1/2 (50 in
the streamlit percentage), because the poisonous branch requires p > 1/2;
shown both on the result builders and end to end on a concrete pipeline whose
model outputs 1/2. -/
theorem C8_boundary :
    (Utils.result_of_prob ["Edible", "Poisonous"] (1/2)).prediction
      = "Edible" ∧
    (Utils.result_of_prob ["Edible", "Poisonous"] (1/2)).is_poisonous
      = false ∧
    (Utils.result_of_prob ["Edible", "Poisonous"] (1/2)).confidence = 1/2 ∧
    (StreamlitApp.result_of_prob (1/2)).prediction = "Edible" ∧
    (StreamlitApp.result_of_prob (1/2)).is_poisonous = false ∧
    (StreamlitApp.result_of_prob (1/2)).confidence = 50 ∧
    (Utils.MushroomClassifier.predict openI0 rz0 cHalf
        (ImageInput.pil img0)).2
      = Except.ok (Utils.result_of_prob cHalf.class_names (1/2)) ∧
    StreamlitApp.predict_mushroom rz0 modelHalf (ImageInput.pil img0)
      = some (StreamlitApp.result_of_prob (1/2)) := by
  refine ⟨?_, ?_, ?_, ?_, ?_, ?_, rfl, rfl⟩
  · show (if (1:ℚ)/2 > 1/2 then (["Edible", "Poisonous"] : List String).getD 1 ""
        else (["Edible", "Poisonous"] : List String).getD 0 "") = "Edible"
    rw [if_neg (by norm_num)]
    rfl
  · show decide ((1:ℚ)/2 > 1/2) = false
    norm_num
  · show max ((1:ℚ)/2) (1 - 1/2) = 1/2
    norm_num
  · show (if (1:ℚ)/2 > 1/2 then "Poisonous" else "Edible") = "Edible"
    rw [if_neg (by norm_num)]
  · show decide ((1:ℚ)/2 > 1/2) = false
    norm_num
  · show max ((1:ℚ)/2) (1 - 1/2) * 100 = 50
    norm_num

/-- Claim C1, counterexample: `MushroomClassifier.predict` does NOT confine
failures to a message or error value — on an invalid input it re-raises the
caught exception as a `RuntimeError` (modelled by `Except.error`), which
propagates to its caller. Here the classifier has a loaded model and failure
comes from the type check of `preprocess_image`. -/
theorem C1_counterexample :
    (Utils.MushroomClassifier.predict openI0 rz0 c0 ImageInput.other).2
      = Except.error
          "Prediction failed: Image must be PIL Image, numpy array, or file path" :=
  rfl

/-- Claim C1, amended: the streamlit functions catch every failure and surface
it as a message plus `None`, `MushroomClassifier.load_model` catches failures
and leaves the model `None` returning `False`, and nothing is retried; but
`MushroomClassifier.predict` raises `RuntimeError` to its caller when the
model is not loaded and re-raises any exception of its body as
`RuntimeError("Prediction failed: ...")` — `predict_batch` then catches those
into `{'error': ...}` entries and itself never raises once the model is
loaded. -/
theorem C1_error_handling (path_exists : String → Bool)
    (keras_load : String → Except String Model)
    (open_image : OpenFn) (rz : ResizeFn)
    (c : Utils.MushroomClassifier) (img : ImageInput)
    (imgs : List ImageInput) (m : Model) (e : String) :
    (path_exists StreamlitApp.MODEL_PATH = false →
      StreamlitApp.load_model path_exists keras_load = none) ∧
    (keras_load StreamlitApp.MODEL_PATH = Except.error e →
      StreamlitApp.load_model path_exists keras_load = none) ∧
    (StreamlitApp.preprocess_image rz img = none →
      StreamlitApp.predict_mushroom rz m img = none) ∧
    (∀ arr, StreamlitApp.preprocess_image rz img = some arr →
      m arr = Except.error e →
      StreamlitApp.predict_mushroom rz m img = none) ∧
    (path_exists c.model_path = false →
      Utils.MushroomClassifier.load_model path_exists keras_load c
        = ({ c with model := none }, false)) ∧
    (path_exists c.model_path = true →
      keras_load c.model_path = Except.error e →
      Utils.MushroomClassifier.load_model path_exists keras_load c
        = ({ c with model := none }, false)) ∧
    (c.model = none →
      (Utils.MushroomClassifier.predict open_image rz c img).2
        = Except.error "Model not loaded. Cannot make predictions.") ∧
    (c.model = some m →
      Utils.MushroomClassifier.preprocess_image open_image rz c img
        = Except.error e →
      (Utils.MushroomClassifier.predict open_image rz c img).2
        = Except.error ("Prediction failed: " ++ e)) ∧
    (c.model = some m →
      ∃ entries,
        (Utils.MushroomClassifier.predict_batch open_image rz c imgs).2
          = Except.ok entries ∧ entries.length = imgs.length) := by
  refine ⟨?_, ?_, ?_, ?_, ?_, ?_, ?_, ?_, ?_⟩
  · intro h
    simp [StreamlitApp.load_model, h]
  · intro h
    unfold StreamlitApp.load_model
    split
    · rfl
    · rw [h]
  · intro h
    simp [StreamlitApp.predict_mushroom, h]
  · intro arr h1 h2
    simp [StreamlitApp.predict_mushroom, h1, h2]
  · intro h
    simp [Utils.MushroomClassifier.load_model, h]
  · intro h1 h2
    simp [Utils.MushroomClassifier.load_model, h1, h2]
  · intro h
    simp [Utils.MushroomClassifier.predict, h]
  · intro hm hpre
    simp [Utils.MushroomClassifier.predict, hm, hpre]
  · intro hm
    refine ⟨imgs.map (batch_entry_of open_image rz c), ?_, List.length_map _ _⟩
    simp only [Utils.MushroomClassifier.predict_batch, hm]
    rfl

/-- Claim C1 witness: concrete instances with a missing model file. -/
theorem C1_error_handling_witness :
    existsNone StreamlitApp.MODEL_PATH = false ∧
    StreamlitApp.load_model existsNone kload0 = none ∧
    cNone.model = none ∧
    (Utils.MushroomClassifier.predict openI0 rz0 cNone ImageInput.other).2
      = Except.error "Model not loaded. Cannot make predictions." :=
  ⟨rfl,
    (C1_error_handling existsNone kload0 openI0 rz0 cNone ImageInput.other []
      model0 "e").1 rfl,
    rfl,
    (C1_error_handling existsNone kload0 openI0 rz0 cNone ImageInput.other []
      model0 "e").2.2.2.2.2.2.1 rfl⟩

/-- Claim C4: under the documented resize contract, every successful
preprocessing — by `MushroomClassifier.preprocess_image` at the default
(224, 224) size, by the streamlit `preprocess_image`, or by
`preprocess_image_simple` — produces an array of shape (1, 224, 224, 3)
whose entries are byte values divided by 255, all within [0, 1]; and
`MushroomClassifier.preprocess_image` succeeds on every PIL image, every
uint8 array, and every readable path. -/
theorem C4_preprocess (open_image : OpenFn) (rz : ResizeFn)
    (hrz : ResizeSpec rz) (c : Utils.MushroomClassifier)
    (hsz : c.img_size = (224, 224)) :
    (∀ img arr, Utils.MushroomClassifier.preprocess_image open_image rz c img
        = Except.ok arr → GoodArr arr) ∧
    (∀ i : PILImage, ∃ arr,
      Utils.MushroomClassifier.preprocess_image open_image rz c
        (ImageInput.pil i) = Except.ok arr) ∧
    (∀ a : NdArray, ∃ arr,
      Utils.MushroomClassifier.preprocess_image open_image rz c
        (ImageInput.ndarray a) = Except.ok arr) ∧
    (∀ pth i, open_image pth = Except.ok i → ∃ arr,
      Utils.MushroomClassifier.preprocess_image open_image rz c
        (ImageInput.path pth) = Except.ok arr) ∧
    (∀ img arr, StreamlitApp.preprocess_image rz img = some arr →
      GoodArr arr) ∧
    (∀ pth arr, Utils.preprocess_image_simple open_image rz pth (224, 224)
        = Except.ok arr → GoodArr arr) := by
  refine ⟨?_, ?_, ?_, ?_, ?_, ?_⟩
  · intro img arr harr
    cases img with
    | path p =>
      cases hopen : open_image p with
      | ok i =>
        simp only [Utils.MushroomClassifier.preprocess_image, hopen,
          Except.map, hsz] at harr
        cases harr
        exact goodArr_pipeline rz hrz _
      | error e =>
        simp [Utils.MushroomClassifier.preprocess_image, hopen,
          Except.map] at harr
    | ndarray a =>
      simp only [Utils.MushroomClassifier.preprocess_image, Except.map,
        hsz] at harr
      cases harr
      exact goodArr_pipeline rz hrz _
    | pil i =>
      simp only [Utils.MushroomClassifier.preprocess_image, Except.map,
        hsz] at harr
      cases harr
      exact goodArr_pipeline rz hrz _
    | other =>
      simp [Utils.MushroomClassifier.preprocess_image, Except.map] at harr
  · intro i
    exact ⟨_, rfl⟩
  · intro a
    exact ⟨_, rfl⟩
  · intro pth i hopen
    refine ⟨expand_dims0 (scale_unit (np_array_of_pil
      (rz (if i.mode ≠ "RGB" then i.convert_RGB else i) c.img_size))), ?_⟩
    unfold Utils.MushroomClassifier.preprocess_image
    dsimp only
    rw [hopen]
    rfl
  · intro img arr harr
    cases img with
    | path p => simp [StreamlitApp.preprocess_image] at harr
    | other => simp [StreamlitApp.preprocess_image] at harr
    | ndarray a =>
      simp only [StreamlitApp.preprocess_image, StreamlitApp.IMG_SIZE,
        Option.some.injEq] at harr
      cases harr
      exact goodArr_pipeline rz hrz _
    | pil i =>
      simp only [StreamlitApp.preprocess_image, StreamlitApp.IMG_SIZE,
        Option.some.injEq] at harr
      cases harr
      exact goodArr_pipeline rz hrz _
  · intro pth arr harr
    cases hopen : open_image pth with
    | ok i =>
      simp only [Utils.preprocess_image_simple, hopen, Except.map] at harr
      cases harr
      exact goodArr_pipeline rz hrz _
    | error e =>
      simp [Utils.preprocess_image_simple, hopen, Except.map] at harr

/-- Claim C4 witness: the concrete resize contract holds of `rz0`, `c0` has
the default size, and the concrete preprocessed array `arr0` is
well-formed. -/
theorem C4_preprocess_witness :
    ResizeSpec rz0 ∧ c0.img_size = (224, 224) ∧ GoodArr arr0 := by
  have hrz : ResizeSpec rz0 := fun i w h => ⟨rfl, rfl⟩
  exact ⟨hrz, rfl,
    (C4_preprocess openI0 rz0 hrz c0 rfl).2.2.2.2.1 (ImageInput.pil img0)
      arr0 rfl⟩

/-- Claim C9, counterexample: on a file-path input the standalone
`preprocess_image_simple` produces the preprocessed array, but the streamlit
`preprocess_image` does not agree — a path string has no `mode` attribute, so
its `try` body raises and it returns `None`. So `preprocess_image_simple`
does not agree with both preprocessors on file-path inputs. -/
theorem C9_counterexample :
    Utils.preprocess_image_simple openI0 rz0 "mushroom.jpg" (224, 224)
      = Except.ok arr0 ∧
    StreamlitApp.preprocess_image rz0 (ImageInput.path "mushroom.jpg")
      = none :=
  ⟨rfl, rfl⟩

/-- Claim C9, amended: on PIL inputs the streamlit `preprocess_image` and
`MushroomClassifier.preprocess_image` (default 224×224 size) compute the same
array; the two result builders agree on the verdict and the poisonous flag,
with every streamlit probability field exactly 100 times the utils value; and
on file-path inputs `preprocess_image_simple` agrees with
`MushroomClassifier.preprocess_image`, and with the streamlit
`preprocess_image` applied to the opened image (the streamlit function itself
rejects raw path inputs, returning `None`). -/
theorem C9_refinement (open_image : OpenFn) (rz : ResizeFn)
    (c : Utils.MushroomClassifier) (hsz : c.img_size = (224, 224))
    (i : PILImage) (pth : String) (j : PILImage)
    (hopen : open_image pth = Except.ok j) (p : ℚ) :
    (∃ arr, Utils.MushroomClassifier.preprocess_image open_image rz c
          (ImageInput.pil i) = Except.ok arr ∧
        StreamlitApp.preprocess_image rz (ImageInput.pil i) = some arr) ∧
    (StreamlitApp.result_of_prob p).prediction
      = (Utils.result_of_prob ["Edible", "Poisonous"] p).prediction ∧
    (StreamlitApp.result_of_prob p).is_poisonous
      = (Utils.result_of_prob ["Edible", "Poisonous"] p).is_poisonous ∧
    (StreamlitApp.result_of_prob p).confidence
      = 100 * (Utils.result_of_prob ["Edible", "Poisonous"] p).confidence ∧
    (StreamlitApp.result_of_prob p).edible_prob
      = 100 * (Utils.result_of_prob
          ["Edible", "Poisonous"] p).probabilities.edible ∧
    (StreamlitApp.result_of_prob p).poisonous_prob
      = 100 * (Utils.result_of_prob
          ["Edible", "Poisonous"] p).probabilities.poisonous ∧
    (∃ arr, Utils.MushroomClassifier.preprocess_image open_image rz c
          (ImageInput.path pth) = Except.ok arr ∧
        Utils.preprocess_image_simple open_image rz pth (224, 224)
          = Except.ok arr ∧
        StreamlitApp.preprocess_image rz (ImageInput.pil j) = some arr) := by
  refine ⟨?_, ?_, ?_, ?_, ?_, ?_, ?_⟩
  · refine ⟨expand_dims0 (scale_unit (np_array_of_pil
      (rz (if i.mode ≠ "RGB" then i.convert_RGB else i) (224, 224)))),
      ?_, ?_⟩
    · unfold Utils.MushroomClassifier.preprocess_image
      dsimp only
      rw [hsz]
      rfl
    · rfl
  · by_cases h : 1/2 < p <;>
      simp [Utils.result_of_prob, StreamlitApp.result_of_prob, h]
  · rfl
  · show max p (1 - p) * 100 = 100 * max p (1 - p)
    ring
  · show (1 - p) * 100 = 100 * (1 - p)
    ring
  · show p * 100 = 100 * p
    ring
  · refine ⟨expand_dims0 (scale_unit (np_array_of_pil
      (rz (if j.mode ≠ "RGB" then j.convert_RGB else j) (224, 224)))),
      ?_, ?_, ?_⟩
    · unfold Utils.MushroomClassifier.preprocess_image
      dsimp only
      rw [hopen, hsz]
      rfl
    · unfold Utils.preprocess_image_simple
      rw [hopen]
      rfl
    · rfl

/-- Claim C9 witness: concrete instances for the amended refinement. -/
theorem C9_refinement_witness :
    c0.img_size = (224, 224) ∧ openI0 "mushroom.jpg" = Except.ok img0 ∧
    (StreamlitApp.result_of_prob (3/5)).confidence
      = 100 * (Utils.result_of_prob ["Edible", "Poisonous"] (3/5)).confidence := by
  have h := C9_refinement openI0 rz0 c0 rfl img0 "mushroom.jpg" img0 rfl (3/5)
  exact ⟨rfl, rfl, h.2.2.2.1⟩

/-- Claim C10: in both result dictionaries, `is_poisonous` holds exactly when
the verdict is "Poisonous", and the confidence equals the reported
probability of the predicted class, which is the larger of the two reported
class probabilities. -/
theorem C10_consistency (p : ℚ) :
    ((Utils.result_of_prob ["Edible", "Poisonous"] p).is_poisonous = true
      ↔ (Utils.result_of_prob ["Edible", "Poisonous"] p).prediction
          = "Poisonous") ∧
    (Utils.result_of_prob ["Edible", "Poisonous"] p).confidence
      = (if (Utils.result_of_prob ["Edible", "Poisonous"] p).is_poisonous
          then (Utils.result_of_prob
              ["Edible", "Poisonous"] p).probabilities.poisonous
          else (Utils.result_of_prob
              ["Edible", "Poisonous"] p).probabilities.edible) ∧
    (Utils.result_of_prob ["Edible", "Poisonous"] p).confidence
      = max (Utils.result_of_prob ["Edible", "Poisonous"] p).probabilities.edible
          (Utils.result_of_prob ["Edible", "Poisonous"] p).probabilities.poisonous ∧
    ((StreamlitApp.result_of_prob p).is_poisonous = true
      ↔ (StreamlitApp.result_of_prob p).prediction = "Poisonous") ∧
    (StreamlitApp.result_of_prob p).confidence
      = (if (StreamlitApp.result_of_prob p).is_poisonous
          then (StreamlitApp.result_of_prob p).poisonous_prob
          else (StreamlitApp.result_of_prob p).edible_prob) ∧
    (StreamlitApp.result_of_prob p).confidence
      = max (StreamlitApp.result_of_prob p).edible_prob
          (StreamlitApp.result_of_prob p).poisonous_prob := by
  by_cases h : (2⁻¹ : ℚ) < p
  · have hmaxp : max p (1 - p) = p := max_eq_left (by linarith)
    have hmax2 : max (1 - p) p = p := max_eq_right (by linarith)
    have hmax3 : max ((1 - p) * 100) (p * 100) = p * 100 :=
      max_eq_right (by nlinarith)
    refine ⟨?_, ?_, ?_, ?_, ?_, ?_⟩ <;>
      simp [Utils.result_of_prob, StreamlitApp.result_of_prob, h, hmaxp,
        hmax2, hmax3]
  · have hp : p ≤ 2⁻¹ := le_of_not_lt h
    have hmaxp : max p (1 - p) = 1 - p := max_eq_right (by linarith)
    have hmax2 : max (1 - p) p = 1 - p := max_eq_left (by linarith)
    have hmax3 : max ((1 - p) * 100) (p * 100) = (1 - p) * 100 :=
      max_eq_left (by nlinarith)
    refine ⟨?_, ?_, ?_, ?_, ?_, ?_⟩ <;>
      simp [Utils.result_of_prob, StreamlitApp.result_of_prob, h, hmaxp,
        hmax2, hmax3]
